import Mathlib

/-!
Shallow embedding of the zenith-renamer anime renaming engine.

The repository keeps several historical implementations of the same logic:

* `src/handlers/anime.py` — the class-based `AnimeHandler` (registry
  `EPISODE_PATTERNS_CONFIG`, extractor `_extract_anime_info`, constructor
  `_construct_new_anime_filename`, per-file driver `_process_anime_files`);
* `src/handlers/anime_handler.py` — a module-level variant
  (`_construct_new_anime_filename`, `_perform_rename_operation`,
  `_rename_anime_file`, `_process_filenames`);
* `src/utils/anime_utils.py` — a legacy extractor (`EPISODE_PATTERNS`,
  `get_episode_info`);
* `src/handlers/base_handler.py` — filesystem rename executor
  (`rename_file`, `process_files`).

Filenames are matched with Python's `re.search` under `re.IGNORECASE`; we embed
the fragment of the regex language the registries use (literals, `\d`, `\s`,
`.`; lazy star, greedy plus, greedy option, alternation, `^`, named groups)
together with a backtracking matcher following Python's preference order
(lazy = shortest first, greedy = longest first, alternatives left to right,
search = leftmost starting position first).
-/

/-- Python whitespace (`str.strip`, regex `\s` on ASCII input). -/
def isPySpace (c : Char) : Bool :=
  c = ' ' || c = '\t' || c = '\n' || c = '\r' || c = '\x0b' || c = '\x0c'

/-- ASCII decimal digit (regex `\d` on ASCII input). -/
def isDigitChar (c : Char) : Bool :=
  '0' ≤ c && c ≤ '9'

/-- Python `str.strip()` on a list of characters. -/
def pyStripList (l : List Char) : List Char :=
  ((l.dropWhile isPySpace).reverse.dropWhile isPySpace).reverse

/-- Python `str.strip()`. -/
def pyStrip (s : String) : String :=
  ⟨pyStripList s.data⟩

/-- Index of the last occurrence of `c` in `l` (Python `str.rfind`, with
`none` in place of `-1`); the accumulator carries the index of the head. -/
def rfindIdxGo (c : Char) : List Char → Nat → Option Nat
  | [], _ => none
  | x :: rest, i =>
    match rfindIdxGo c rest (i + 1) with
    | some j => some j
    | none => if x = c then some i else none

/-- Index of the last occurrence of `c` in `l`, `none` if absent. -/
def rfindIdx (l : List Char) (c : Char) : Option Nat :=
  rfindIdxGo c l 0

/-- CPython `posixpath.splitext` on a list of characters: the extension starts
at the last dot, provided the dot lies after the last path separator and some
earlier character of the basename is not itself a dot (so `".bashrc"` and
`"..."` have no extension). -/
def splitextList (p : List Char) : List Char × List Char :=
  let sepIdx : Int := match rfindIdx p '/' with | some i => (i : Int) | none => -1
  let dotIdx : Int := match rfindIdx p '.' with | some i => (i : Int) | none => -1
  if sepIdx < dotIdx then
    let fnIdx := (sepIdx + 1).toNat
    let d := dotIdx.toNat
    if ((p.drop fnIdx).take (d - fnIdx)).any (fun c => c != '.') then
      (p.take d, p.drop d)
    else (p, [])
  else (p, [])

/-- Model of `os.path.splitext` (POSIX flavour). -/
def splitext (s : String) : String × String :=
  (⟨(splitextList s.data).1⟩, ⟨(splitextList s.data).2⟩)

/-- Model of `os.path.join` (POSIX flavour, two arguments). -/
def pjoin (a b : String) : String :=
  if b.data.head? = some '/' then b
  else if a = "" || a.data.getLast? = some '/' then a ++ b
  else a ++ "/" ++ b

/-- Model of `os.path.dirname` (POSIX flavour): everything before the last separator,
with trailing separators stripped unless the head is all separators. -/
def pdirname (p : String) : String :=
  let i : Nat := match rfindIdx p.data '/' with | some j => j + 1 | none => 0
  let head := p.data.take i
  if head ≠ [] ∧ head.any (fun c => c != '/') then
    ⟨((head.reverse.dropWhile (fun c => c = '/'))).reverse⟩
  else ⟨head⟩

/-- Python `int(...)` on a regex capture produced by `\d+`: all characters are
decimal digits and there is at least one; any other shape is treated as a
conversion failure (`ValueError`). -/
def parseDigits (l : List Char) : Option Int :=
  if l ≠ [] ∧ l.all isDigitChar then
    some (Int.ofNat (l.foldl (fun acc c => acc * 10 + (c.toNat - 48)) 0))
  else none

/-- First-match association-list lookup (Python `dict.get` for string keys). -/
def lookupAssoc {β : Type} : List (String × β) → String → Option β
  | [], _ => none
  | (k, v) :: rest, key => if k = key then some v else lookupAssoc rest key

/-! ### Regex fragment and backtracking matcher -/

/-- Single-character matchers used by the registries. -/
inductive RChar where
  | lit (c : Char)
  | digit
  | space
  | any
deriving DecidableEq

/-- The regex fragment used by the pattern registries. -/
inductive Rgx where
  | eps
  | bol
  | ch (k : RChar)
  | seq (a b : Rgx)
  | alt (a b : Rgx)
  | starLazy (a : Rgx)
  | plusGreedy (a : Rgx)
  | optGreedy (a : Rgx)
  | group (name : String) (a : Rgx)
deriving DecidableEq

/-- Character match under `re.IGNORECASE` (`.` does not match a newline). -/
def matchRChar (k : RChar) (c : Char) : Bool :=
  match k with
  | .lit c0 => c.toLower = c0.toLower
  | .digit => isDigitChar c
  | .space => isPySpace c
  | .any => c != '\n'

/-- Captured groups: group name to captured characters, most recent first. -/
abbrev Caps := List (String × List Char)

/-- Backtracking matcher in continuation-passing style, following Python's
preference order: lazy iteration prefers fewer repetitions, greedy iteration
prefers more, alternatives are tried left to right.  `pos` is the absolute
position of `s` within the subject (for `^`); iteration of a sub-pattern that
consumed nothing is cut off, as no registry pattern repeats a nullable piece.
The fuel bounds the depth of the search and is chosen large enough to never
run out on the inputs considered. -/
def mrun : Nat → Rgx → Nat → List Char → Caps →
    (Nat → List Char → Caps → Option Caps) → Option Caps
  | 0, _, _, _, _, _ => none
  | Nat.succ fuel, r, pos, s, caps, k =>
    match r with
    | .eps => k pos s caps
    | .bol => if pos = 0 then k pos s caps else none
    | .ch kc =>
      match s with
      | [] => none
      | c :: rest => if matchRChar kc c then k (pos + 1) rest caps else none
    | .seq a b =>
      mrun fuel a pos s caps (fun p1 s1 c1 => mrun fuel b p1 s1 c1 k)
    | .alt a b =>
      (mrun fuel a pos s caps k) <|> (mrun fuel b pos s caps k)
    | .starLazy a =>
      k pos s caps <|>
        mrun fuel a pos s caps (fun p1 s1 c1 =>
          if pos < p1 then mrun fuel (.starLazy a) p1 s1 c1 k else none)
    | .plusGreedy a =>
      mrun fuel a pos s caps (fun p1 s1 c1 =>
        (if pos < p1 then mrun fuel (.plusGreedy a) p1 s1 c1 k else none) <|>
          k p1 s1 c1)
    | .optGreedy a =>
      (mrun fuel a pos s caps k) <|> k pos s caps
    | .group n a =>
      mrun fuel a pos s caps (fun p1 s1 c1 =>
        k p1 s1 ((n, s.take (p1 - pos)) :: c1))

/-- Fuel large enough for the matcher never to give up on subject `s`. -/
def rgxFuel (s : List Char) : Nat :=
  (s.length + 2) * 400

/-- Try to match `r` at position `pos`, then at each later position
(`re.search`: the leftmost starting position wins). -/
def researchGo (fuel : Nat) (r : Rgx) : Nat → List Char → Option Caps
  | pos, [] => mrun fuel r pos [] [] (fun _ _ caps => some caps)
  | pos, s@(_ :: rest) =>
    (mrun fuel r pos s [] (fun _ _ caps => some caps)) <|>
      researchGo fuel r (pos + 1) rest

/-- Python `re.search` under `re.IGNORECASE`: `some` captured groups on the
first (leftmost, then preference-ordered) match, `none` if no position
matches. -/
def research (r : Rgx) (s : List Char) : Option Caps :=
  researchGo (rgxFuel s) r 0 s

/-- Sequence a list of regexes. -/
def rseq (l : List Rgx) : Rgx :=
  l.foldr Rgx.seq Rgx.eps

/-- A literal string, one case-insensitive character matcher per character. -/
def rstr (s : String) : Rgx :=
  rseq (s.data.map (fun c => Rgx.ch (RChar.lit c)))

/-- Regex `\s+`. -/
def rspaces : Rgx := Rgx.plusGreedy (Rgx.ch RChar.space)

/-- Regex `\d+`. -/
def rdigits : Rgx := Rgx.plusGreedy (Rgx.ch RChar.digit)

/-- Regex `.*?`. -/
def rlazyAny : Rgx := Rgx.starLazy (Rgx.ch RChar.any)

/-- Regex `(?:st|nd|rd|th)?`. -/
def rordinal : Rgx :=
  Rgx.optGreedy (Rgx.alt (rstr "st") (Rgx.alt (rstr "nd") (Rgx.alt (rstr "rd") (rstr "th"))))

example : research (rstr "abc") "xxAbCy".data =
    some [] := by decide

example : research (rseq [Rgx.group "g" rdigits, rstr "x"]) "ab107x".data =
    some [("g", ['1', '0', '7'])] := by decide

/-! ### `AnimeHandler` pattern registry (`src/handlers/anime.py`) -/

/-- One entry of `EPISODE_PATTERNS_CONFIG`: the compiled pattern, the
`"groups"` mapping (logical field name to named capture group), and the
`"season_default"` entry (`hasSeasonDefault` records the key's presence; in
every built-in rule it is present with value `None`). -/
structure PatternConfig where
  rgx : Rgx
  groups : List (String × String)
  hasSeasonDefault : Bool
  seasonDefault : Option Int
deriving DecidableEq

-- r"Watch\s+(?P<series_name>.*?) (?P<season_num>\d+)(?:st|nd|rd|th)? Season Episode\s+(?P<episode_num>\d+)"
def animePat0 : Rgx :=
  rseq [rstr "Watch", rspaces, Rgx.group "series_name" rlazyAny, rstr " ",
    Rgx.group "season_num" rdigits, rordinal, rstr " Season Episode", rspaces,
    Rgx.group "episode_num" rdigits]

-- r"^(?P<series_name>.*?) (?P<season_num>\d+)(?:st|nd|rd|th)? Season Episode\s+(?P<episode_num>\d+)"
def animePat1 : Rgx :=
  rseq [Rgx.bol, Rgx.group "series_name" rlazyAny, rstr " ",
    Rgx.group "season_num" rdigits, rordinal, rstr " Season Episode", rspaces,
    Rgx.group "episode_num" rdigits]

-- r"Watch\s+(?P<series_name>.*?) Episode\s+(?P<episode_num>\d+)"
def animePat2 : Rgx :=
  rseq [rstr "Watch", rspaces, Rgx.group "series_name" rlazyAny,
    rstr " Episode", rspaces, Rgx.group "episode_num" rdigits]

-- r"^(?P<series_name>.*?) Episode\s+(?P<episode_num>\d+)"
def animePat3 : Rgx :=
  rseq [Rgx.bol, Rgx.group "series_name" rlazyAny,
    rstr " Episode", rspaces, Rgx.group "episode_num" rdigits]

/-- Registry `EPISODE_PATTERNS_CONFIG` from `src/handlers/anime.py`: two
season-capturing rules, then two season-less rules. -/
def EPISODE_PATTERNS_CONFIG : List PatternConfig :=
  [⟨animePat0,
    [("series_name", "series_name"), ("season_num", "season_num"), ("episode_num", "episode_num")],
    true, none⟩,
   ⟨animePat1,
    [("series_name", "series_name"), ("season_num", "season_num"), ("episode_num", "episode_num")],
    true, none⟩,
   ⟨animePat2,
    [("series_name", "series_name"), ("episode_num", "episode_num")],
    true, none⟩,
   ⟨animePat3,
    [("series_name", "series_name"), ("episode_num", "episode_num")],
    true, none⟩]

/-- Embedding of `AnimeHandler._process_match`: read the captures named by the rule's
`groups` mapping — series name stripped of surrounding whitespace, season and
episode converted to integers (conversion failure means absent), the season
falling back to the rule's `season_default` when the rule has no season
capture at all — and pass the file extension through. -/
def process_match (config : PatternConfig) (caps : Caps) (file_ext : String) :
    Option String × Option Int × Option Int × String :=
  let series_name :=
    match lookupAssoc config.groups "series_name" with
    | some g => (lookupAssoc caps g).map (fun l => pyStrip ⟨l⟩)
    | none => none
  let season_num :=
    match lookupAssoc config.groups "season_num" with
    | some g => (lookupAssoc caps g).bind parseDigits
    | none => if config.hasSeasonDefault then config.seasonDefault else none
  let episode_num :=
    match lookupAssoc config.groups "episode_num" with
    | some g => (lookupAssoc caps g).bind parseDigits
    | none => none
  (series_name, season_num, episode_num, file_ext)

/-- Rule loop of `AnimeHandler._extract_anime_info`: first matching rule wins. -/
def extractGo (file_ext : String) (filename : List Char) :
    List PatternConfig → Option String × Option Int × Option Int × String
  | [] => (none, none, none, file_ext)
  | config :: rest =>
    match research config.rgx filename with
    | some caps => process_match config caps file_ext
    | none => extractGo file_ext filename rest

/-- Embedding of `AnimeHandler._extract_anime_info`: split off the extension, then try the
configured rules in order with a case-insensitive search; on the first match
return the processed captures, otherwise `(None, None, None, file_ext)`. -/
def extract_anime_info (cfgs : List PatternConfig) (filename : String) :
    Option String × Option Int × Option Int × String :=
  extractGo (splitext filename).2 filename.data cfgs

example :
    extract_anime_info EPISODE_PATTERNS_CONFIG "Alpha Episode 01.mkv" =
    (some "Alpha", none, some 1, ".mkv") := by decide

example :
    extract_anime_info EPISODE_PATTERNS_CONFIG "random_video_file.mp4" =
    (none, none, none, ".mp4") := by decide

/-! ### Filename constructor and per-file pipeline (`src/handlers/anime.py`) -/

/-- Characters removed by `re.sub` with the class of filesystem-invalid
characters. -/
def invalidFilenameChars : List Char :=
  ['<', '>', ':', '\"', '/', '\\', '|', '?', '*']

/-- Python `re.sub` deleting every filesystem-invalid character. -/
def removeInvalidChars (s : String) : String :=
  ⟨s.data.filter (fun c => !(invalidFilenameChars.contains c))⟩

/-- Python truthiness of a string. -/
def truthyStr (s : String) : Bool :=
  s != ""

/-- Python truthiness of an optional string (`None` and `""` are falsy). -/
def truthyOpt (o : Option String) : Bool :=
  match o with
  | some s => s != ""
  | none => false

/-- Python `f"{n:02d}"`. -/
def pad2 (n : Int) : String :=
  if 0 ≤ n ∧ n < 10 then "0" ++ toString n else toString n

/-- Embedding of `AnimeHandler._construct_new_anime_filename`: season segment only when the
season is neither `None` nor `0`; episode segment always; episode title, when
truthy, stripped of surrounding whitespace and of filesystem-invalid
characters and appended only if non-empty after that; parts joined with
`" - "` and the extension appended. -/
def construct_new_anime_filename (series_name : String) (episode_num : Int)
    (file_ext : String) (season : Option Int) (episode_title : Option String) :
    String :=
  let season_str : Option String :=
    match season with
    | some s => if s ≠ 0 then some ("S" ++ pad2 s) else none
    | none => none
  let episode_num_str := "E" ++ pad2 episode_num
  let parts0 := [pyStrip series_name]
  let parts1 := match season_str with
    | some s => parts0 ++ [s]
    | none => parts0
  let parts2 := parts1 ++ [episode_num_str]
  let parts3 :=
    if truthyOpt episode_title then
      let sanitized_title := removeInvalidChars (pyStrip (episode_title.getD ""))
      if truthyStr sanitized_title then parts2 ++ [sanitized_title] else parts2
    else parts2
  String.intercalate " - " parts3 ++ file_ext

/-- Computation `final_series_name` of `AnimeHandler._rename_anime_file`: the override
wins when truthy (Python: `series_title_override if series_title_override
else extracted_series_name`). -/
def final_series_name (series_title_override extracted_series_name : Option String) :
    Option String :=
  if truthyOpt series_title_override then series_title_override
  else extracted_series_name

/-- Outcome of handling one file.  `attemptRename` stands for the call into
the rename executor with the old and new full paths; `skipped` for the
"could not determine …" report.  `confirmRequest` exists only so that the
specification's confirmation step can be talked about: no code path produces
it. -/
inductive FileOutcome where
  | attemptRename (oldPath newPath : String)
  | skipped (filename : String)
  | confirmRequest
deriving DecidableEq

/-- Embedding of `AnimeHandler._rename_anime_file`: re-extract, pick the final series name
(override over extracted), and if the final series name is truthy and an
episode number is present (the extension is a string, hence never `None`),
build the new name and hand the old and new paths to the rename executor;
otherwise report a skip. -/
def rename_anime_file (current_filepath original_filename : String)
    (season_override : Option Int) (episode_title : Option String)
    (series_title_override : Option String) : FileOutcome :=
  let r := extract_anime_info EPISODE_PATTERNS_CONFIG original_filename
  let extracted_series_name := r.1
  let episode_num := r.2.2.1
  let file_ext := r.2.2.2
  let fsn := final_series_name series_title_override extracted_series_name
  if truthyOpt fsn && episode_num.isSome then
    let new_name := construct_new_anime_filename (fsn.getD "") (episode_num.getD 0)
      file_ext season_override episode_title
    FileOutcome.attemptRename current_filepath
      (pjoin (pdirname current_filepath) new_name)
  else FileOutcome.skipped original_filename

/-- Keys of the dynamically-typed Python dictionaries that carry episode
titles: `AnimeHandler._load_episode_titles_from_csv` produces integer keys,
`process_episode_data` (in `src/utils.py` / `src/utils/video_utils.py`)
produces `(series, season, episode)` tuple keys. -/
inductive PyKey where
  | pyInt (n : Int)
  | pyTriple (series : String) (season : Int) (episode : Int)
deriving DecidableEq

/-- Python `dict.get` on an episode-title dictionary. -/
def dictGet : List (PyKey × String) → PyKey → Option String
  | [], _ => none
  | (k, v) :: rest, key => if k = key then some v else dictGet rest key

/-- Python truthiness of an optional dictionary (`None` and `{}` are falsy). -/
def truthyDict (d : Option (List (PyKey × String))) : Bool :=
  match d with
  | none => false
  | some l => !l.isEmpty

/-- Season merge of `AnimeHandler._process_anime_files`: the season extracted
from the filename when present, else the caller's default. -/
def effective_season (season_from_file : Option Int)
    (default_season_from_args : Int) : Int :=
  match season_from_file with
  | some s => s
  | none => default_season_from_args

/-- Episode-title merge of `AnimeHandler._process_anime_files` (lines
379–381): when an episode number was extracted and the dictionary is truthy,
`episode_data.get(episode_num)` — the key is the episode number alone. -/
def episode_title_merge (episode_num : Option Int)
    (episode_data : Option (List (PyKey × String))) : Option String :=
  if episode_num.isSome && truthyDict episode_data then
    dictGet (episode_data.getD []) (PyKey.pyInt (episode_num.getD 0))
  else none

/-- Embedding of `AnimeHandler._process_anime_files`: for each file, join the base
directory onto the name, extract, merge the season and the episode title, and
run the per-file rename step. -/
def process_anime_files (base_dir : String) (files_to_process : List String)
    (default_season_from_args : Int) (series_title_override : Option String)
    (episode_data : Option (List (PyKey × String))) : List FileOutcome :=
  files_to_process.map (fun original_filename =>
    let current_filepath := pjoin base_dir original_filename
    let r := extract_anime_info EPISODE_PATTERNS_CONFIG original_filename
    let season_from_file := r.2.1
    let episode_num := r.2.2.1
    let eff := effective_season season_from_file default_season_from_args
    let episode_title := episode_title_merge episode_num episode_data
    rename_anime_file current_filepath original_filename (some eff)
      episode_title series_title_override)


/-! ### Module-level variant (`src/handlers/anime_handler.py`) -/

/-- Embedding of `_construct_new_anime_filename` from `src/handlers/anime_handler.py`: the
series name is used verbatim (no strip) and the episode title, when truthy,
is appended verbatim (no sanitization). -/
def handler_construct_new_anime_filename (series_name : String)
    (episode_num : Int) (file_ext : String) (season : Option Int)
    (episode_title : Option String) : String :=
  let season_str : Option String :=
    match season with
    | some s => if s ≠ 0 then some ("S" ++ pad2 s) else none
    | none => none
  let episode_num_str := "E" ++ pad2 episode_num
  let parts0 := [series_name]
  let parts1 := match season_str with
    | some s => parts0 ++ [s]
    | none => parts0
  let parts2 := parts1 ++ [episode_num_str]
  let parts3 :=
    if truthyOpt episode_title then parts2 ++ [episode_title.getD ""]
    else parts2
  String.intercalate " - " parts3 ++ file_ext

/-- Modelled from the spec: `anime_handler.py` calls
`anime_utils.extract_anime_info`, which is absent from `src/` (the module only
defines `get_episode_info`).  Section 4.2 of the specification gives the
Extractor contract — apply the registry rules in priority order with a
case-insensitive search-anywhere match, first match wins, extension always
derivable and the empty string when there is none — which coincides with
`AnimeHandler._extract_anime_info` over the default registry, so we reuse it. -/
def au_extract_anime_info (filename : String) :
    Option String × Option Int × Option Int × String :=
  extract_anime_info EPISODE_PATTERNS_CONFIG filename

/-- Embedding of `_rename_anime_file` from `src/handlers/anime_handler.py`: unlike the
`AnimeHandler` version, its guard also requires a truthy (non-empty) file
extension (`if series_name and episode_num is not None and file_ext:`). -/
def handler_rename_anime_file (old_path filename : String)
    (season : Option Int) (episode_title : Option String) : FileOutcome :=
  let r := au_extract_anime_info filename
  let series_name := r.1
  let episode_num := r.2.2.1
  let file_ext := r.2.2.2
  if truthyOpt series_name && episode_num.isSome && truthyStr file_ext then
    let new_name := handler_construct_new_anime_filename (series_name.getD "")
      (episode_num.getD 0) file_ext season episode_title
    FileOutcome.attemptRename old_path (pjoin (pdirname old_path) new_name)
  else FileOutcome.skipped filename

/-- Episode-title merge of `_process_filenames` (lines 149–154 of
`src/handlers/anime_handler.py`): when the extracted series name is truthy,
an episode number is present and the dictionary is truthy, look up the tuple
key `(series_name, effective_season, episode_num)`. -/
def handler_effective_title (series_name : Option String)
    (eff_season : Int) (episode_num : Option Int)
    (episode_data : Option (List (PyKey × String))) : Option String :=
  if truthyOpt series_name && episode_num.isSome && truthyDict episode_data then
    dictGet (episode_data.getD [])
      (PyKey.pyTriple (series_name.getD "") eff_season (episode_num.getD 0))
  else none

/-- Embedding of `_process_filenames` from `src/handlers/anime_handler.py`. -/
def handler_process_filenames (base_dir : String) (filenames : List String)
    (default_season : Int) (episode_data : Option (List (PyKey × String))) :
    List FileOutcome :=
  filenames.map (fun filename =>
    let old_path := if truthyStr base_dir then pjoin base_dir filename else filename
    let r := au_extract_anime_info filename
    let eff := effective_season r.2.1 default_season
    let episode_title := handler_effective_title r.1 eff r.2.2.1 episode_data
    handler_rename_anime_file old_path filename (some eff) episode_title)

/-! ### Filesystem model and rename executor (`src/handlers/base_handler.py`) -/

/-- Filesystem errors a rename can raise (`OSError` in Python): the source
path is gone, or an unrelated file already occupies the destination. -/
inductive OSErr where
  | srcMissing
  | dstExists
deriving DecidableEq

/-- Model of `os.rename` (an external collaborator): the filesystem is the
list of existing paths; renaming fails when the source is absent or when a
different existing file occupies the destination, and otherwise moves the
path. -/
def osRename (fs : List String) (old_path new_path : String) :
    Except OSErr (List String) :=
  if !fs.contains old_path then .error .srcMissing
  else if (fs.erase old_path).contains new_path then .error .dstExists
  else .ok (fs.erase old_path ++ [new_path])

/-- Reports emitted by the rename executors. -/
inductive RenameEvent where
  | renamed (oldName newName : String)
  | skippedSame (path : String)
  | errorReport (oldName : String) (e : OSErr)
  | noChange (path : String)
deriving DecidableEq

/-- Embedding of `BaseHandler.rename_file`: join both names onto the base directory; if the
two paths coincide report "[INFO] Skipping …. Already renamed." and do
nothing; otherwise attempt `os.rename`, catching any `OSError` and reporting
"[ERROR] Error renaming …" while leaving the filesystem as it was. -/
def rename_file (fs : List String) (base_dir old_name new_name : String) :
    List String × RenameEvent :=
  let old_path := pjoin base_dir old_name
  let new_path := pjoin base_dir new_name
  if old_path = new_path then (fs, RenameEvent.skippedSame new_path)
  else
    match osRename fs old_path new_path with
    | .ok fs1 => (fs1, RenameEvent.renamed old_name new_name)
    | .error e => (fs, RenameEvent.errorReport old_name e)

/-- Rename loop of `BaseHandler.process_files` over a renaming map, one
`rename_file` call per entry. -/
def process_files_loop (fs : List String) (base_dir : String) :
    List (String × String) → List String × List RenameEvent
  | [] => (fs, [])
  | (old_name, new_name) :: rest =>
    let r := rename_file fs base_dir old_name new_name
    let t := process_files_loop r.1 base_dir rest
    (t.1, r.2 :: t.2)

/-- Embedding of `_perform_rename_operation` from `src/handlers/anime_handler.py`: rename
only when the paths differ (reporting "Renamed: …"), otherwise report "Did
not rename: … (new path is same as old path)"; an `OSError` from `os.rename`
propagates to the caller. -/
def handler_perform_rename_operation (fs : List String)
    (old_path new_path : String) : Except OSErr (List String × RenameEvent) :=
  if old_path ≠ new_path then
    match osRename fs old_path new_path with
    | .ok fs1 => .ok (fs1, RenameEvent.renamed old_path new_path)
    | .error e => .error e
  else .ok (fs, RenameEvent.noChange new_path)

/-! ### Legacy extractor (`src/utils/anime_utils.py`) -/

-- r"Watch (.*?) Episode (\d+)"
def auPat0 : Rgx :=
  rseq [rstr "Watch ", Rgx.group "1" rlazyAny, rstr " Episode ",
    Rgx.group "2" rdigits]

-- r"(.*?) Episode (\d+)"
def auPat1 : Rgx :=
  rseq [Rgx.group "1" rlazyAny, rstr " Episode ", Rgx.group "2" rdigits]

-- r"(.*?) (\d+)(.*?) Season Episode (\d+)"
def auPat2 : Rgx :=
  rseq [Rgx.group "1" rlazyAny, rstr " ", Rgx.group "2" rdigits,
    Rgx.group "3" rlazyAny, rstr " Season Episode ", Rgx.group "4" rdigits]

-- r"(.*?) - S(\d+) - E(\d+) - (.*?)"
def auPat3 : Rgx :=
  rseq [Rgx.group "1" rlazyAny, rstr " - S", Rgx.group "2" rdigits,
    rstr " - E", Rgx.group "3" rdigits, rstr " - ", Rgx.group "4" rlazyAny]

-- r"(.*?) - S(\d+) - E(\d+)"
def auPat4 : Rgx :=
  rseq [Rgx.group "1" rlazyAny, rstr " - S", Rgx.group "2" rdigits,
    rstr " - E", Rgx.group "3" rdigits]

-- r"(.*?) - E(\d+) - (.*?)"
def auPat5 : Rgx :=
  rseq [Rgx.group "1" rlazyAny, rstr " - E", Rgx.group "2" rdigits,
    rstr " - ", Rgx.group "3" rlazyAny]

-- r"(.*?) - E(\d+)"
def auPat6 : Rgx :=
  rseq [Rgx.group "1" rlazyAny, rstr " - E", Rgx.group "2" rdigits]

/-- Registry `EPISODE_PATTERNS` from `src/utils/anime_utils.py`, with each rule's
position in the list: the two season-less `Episode`-style rules come first,
the season-capturing rule only third. -/
def EPISODE_PATTERNS : List (Nat × Rgx) :=
  [(0, auPat0), (1, auPat1), (2, auPat2), (3, auPat3), (4, auPat4),
   (5, auPat5), (6, auPat6)]

/-- Captured group as a string. -/
def capStr (caps : Caps) (g : String) : Option String :=
  (lookupAssoc caps g).map (fun l => (⟨l⟩ : String))

/-- Captured group converted with `int(...)`. -/
def capInt (caps : Caps) (g : String) : Option Int :=
  (lookupAssoc caps g).bind parseDigits

/-- Embedding of `_process_pattern` from `src/utils/anime_utils.py`, dispatching on the
position of the matching rule exactly as the `if pattern ==
EPISODE_PATTERNS[i]` chain does; the chain falls through (returns `None`) for
an unknown rule. -/
def au_process_pattern (idx : Nat) (caps : Caps) :
    Option (String × Option Int × Int × Option String) :=
  match capStr caps "1" with
  | none => none
  | some g1 =>
    let series_name := pyStrip g1
    if idx = 0 ∨ idx = 1 then
      (capInt caps "2").map (fun e => (series_name, none, e, none))
    else if idx = 2 then do
      let s ← capInt caps "2"
      let e ← capInt caps "4"
      pure (series_name, some s, e, none)
    else if idx = 3 then do
      let s ← capInt caps "2"
      let e ← capInt caps "3"
      let t ← capStr caps "4"
      pure (series_name, some s, e, some t)
    else if idx = 4 then do
      let s ← capInt caps "2"
      let e ← capInt caps "3"
      pure (series_name, some s, e, none)
    else if idx = 5 then do
      let e ← capInt caps "2"
      let t ← capStr caps "3"
      pure (series_name, none, e, some t)
    else if idx = 6 then
      (capInt caps "2").map (fun e => (series_name, none, e, none))
    else none

/-- Rule loop of `get_episode_info`. -/
def au_get_episode_info_go (filename : List Char) :
    List (Nat × Rgx) → Option (String × Option Int × Int × Option String × String)
  | [] => none
  | (idx, r) :: rest =>
    match research r filename with
    | some caps =>
      (au_process_pattern idx caps).map
        (fun q => (q.1, q.2.1, q.2.2.1, q.2.2.2, (⟨filename⟩ : String)))
    | none => au_get_episode_info_go filename rest

/-- Embedding of `get_episode_info` from `src/utils/anime_utils.py`: try the legacy rules
in order with a case-insensitive search, process the first match, and return
the empty tuple (here `none`) when nothing matches. -/
def au_get_episode_info (filename : String) :
    Option (String × Option Int × Int × Option String × String) :=
  au_get_episode_info_go filename.data EPISODE_PATTERNS


/-! ### Pattern-registry replacement (`AnimeHandler._set_episode_patterns`) -/

/-- Shape of one raw rule from an external JSON configuration; only the
presence of its `"pattern"` field matters to validation. -/
structure RawRule where
  patternField : Option String
deriving DecidableEq

/-- The JSON value found under `"episode_patterns"`: either a list of raw
rules or something that is not a list. -/
inductive PatternsValue where
  | plist (items : List RawRule)
  | nonList
deriving DecidableEq

/-- Result of replacing the registry: the registry afterwards plus whether a
warning was printed, or a fatal configuration error. -/
inductive SetPatternsResult where
  | ok (registry : List RawRule) (warned : Bool)
  | configError
deriving DecidableEq

/-- Embedding of `AnimeHandler._set_episode_patterns`: any list is installed wholesale
(`self.episode_patterns_config = patterns_value`) with no per-item check; a
non-list is reported with a warning and the current rules are kept.  Nothing
ever raises. -/
def set_episode_patterns (patterns_value : PatternsValue)
    (current : List RawRule) : SetPatternsResult :=
  match patterns_value with
  | .plist items => .ok items false
  | .nonList => .ok current true

/-- The built-in registry in raw form (the four pattern strings of
`EPISODE_PATTERNS_CONFIG`). -/
def default_raw_rules : List RawRule :=
  [⟨some "Watch\\s+(?P<series_name>.*?) (?P<season_num>\\d+)(?:st|nd|rd|th)? Season Episode\\s+(?P<episode_num>\\d+)"⟩,
   ⟨some "^(?P<series_name>.*?) (?P<season_num>\\d+)(?:st|nd|rd|th)? Season Episode\\s+(?P<episode_num>\\d+)"⟩,
   ⟨some "Watch\\s+(?P<series_name>.*?) Episode\\s+(?P<episode_num>\\d+)"⟩,
   ⟨some "^(?P<series_name>.*?) Episode\\s+(?P<episode_num>\\d+)"⟩]

/-- Registry replacement exactly as claim C9 words it: a value that is not a
sequence of valid rule shapes fails with a `ConfigError` when it is not a
sequence at all, and individually invalid rules (no `pattern` field) are
dropped per-item with a warning while the valid ones are kept. -/
def spec_claimed_replace (patterns_value : PatternsValue)
    (_current : List RawRule) : SetPatternsResult :=
  match patterns_value with
  | .nonList => .configError
  | .plist items =>
    .ok (items.filter (fun r => r.patternField.isSome))
      (items.any (fun r => r.patternField.isNone))

/-! ### Series-title override and Jikan title selection (`src/handlers/anime.py`) -/

/-- Inference loop of `AnimeHandler._determine_series_title_for_jikan`: the
first file whose extracted series name is truthy supplies the title. -/
def first_inferred_series : List String → Option String
  | [] => none
  | filename :: rest =>
    let extracted := (extract_anime_info EPISODE_PATTERNS_CONFIG filename).1
    if truthyOpt extracted then extracted else first_inferred_series rest

/-- Embedding of `AnimeHandler._determine_series_title_for_jikan`: a truthy `--title`
argument wins; otherwise, in online mode with a non-empty file list, the
title is inferred from the filenames; otherwise there is none. -/
def determine_series_title_for_jikan (title : Option String) (online : Bool)
    (target_files : List String) : Option String :=
  if truthyOpt title then title
  else if online && !target_files.isEmpty then first_inferred_series target_files
  else none

/-! ### Claim-side definitions -/

/-- Filename construction exactly as claim C1 words it: series stripped of
surrounding whitespace, `S`/`E` segments, the title with every
filesystem-invalid character removed and included only if non-empty after
that removal, the extension appended verbatim. -/
def spec_claimed_construct (series_name : String) (episode_num : Int)
    (file_ext : String) (season : Option Int) (episode_title : Option String) :
    String :=
  let parts :=
    [pyStrip series_name]
    ++ (match season with
        | some n => if n ≠ 0 then ["S" ++ pad2 n] else []
        | none => [])
    ++ ["E" ++ pad2 episode_num]
    ++ (match episode_title with
        | some t =>
          let t1 := removeInvalidChars t
          if t1 ≠ "" then [t1] else []
        | none => [])
  String.intercalate " - " parts ++ file_ext

/-- Filename construction as claim C1 must be amended for the `AnimeHandler`
constructor: the title is additionally stripped of surrounding whitespace
before the invalid characters are removed. -/
def spec_amended_construct (series_name : String) (episode_num : Int)
    (file_ext : String) (season : Option Int) (episode_title : Option String) :
    String :=
  let parts :=
    [pyStrip series_name]
    ++ (match season with
        | some n => if n ≠ 0 then ["S" ++ pad2 n] else []
        | none => [])
    ++ ["E" ++ pad2 episode_num]
    ++ (match episode_title with
        | some t =>
          let t1 := removeInvalidChars (pyStrip t)
          if t1 ≠ "" then [t1] else []
        | none => [])
  String.intercalate " - " parts ++ file_ext

/-- Filename construction as claim C1 must be amended for the module-level
constructor: series name and title are used verbatim, the title included
exactly when non-empty, with no sanitization at all. -/
def spec_amended_handler_construct (series_name : String) (episode_num : Int)
    (file_ext : String) (season : Option Int) (episode_title : Option String) :
    String :=
  let parts :=
    [series_name]
    ++ (match season with
        | some n => if n ≠ 0 then ["S" ++ pad2 n] else []
        | none => [])
    ++ ["E" ++ pad2 episode_num]
    ++ (match episode_title with
        | some t => if t ≠ "" then [t] else []
        | none => [])
  String.intercalate " - " parts ++ file_ext

/-- Episode-title lookup exactly as claim C5 words it: the loaded map is
consulted with the key formed from the effective series name, the effective
season and the extracted episode number, and the title is absent when no map
was loaded or no entry matches that key. -/
def spec_claimed_title_lookup (eff_series : String) (eff_season : Int)
    (episode_num : Int) (episode_data : Option (List (PyKey × String))) :
    Option String :=
  match episode_data with
  | none => none
  | some m => dictGet m (PyKey.pyTriple eff_series eff_season episode_num)

/-- Tuple-keyed lookup as claim C5 must be amended for `_process_filenames`:
the key is the extracted series name (which, with no override mechanism in
that implementation, is the effective one), the effective season and the
extracted episode number; the title is absent when the series name is missing
or empty, no episode number was extracted, no map was loaded, or the map is
empty or has no matching entry. -/
def spec_amended_tuple_lookup (series_name : Option String) (eff_season : Int)
    (episode_num : Option Int) (episode_data : Option (List (PyKey × String))) :
    Option String :=
  match series_name, episode_num, episode_data with
  | some s, some e, some m =>
    if s ≠ "" ∧ m ≠ [] then dictGet m (PyKey.pyTriple s eff_season e) else none
  | _, _, _ => none

/-- Episode-keyed lookup as claim C5 must be amended for the `AnimeHandler`
implementation: the key is the extracted episode number alone. -/
def spec_amended_episode_lookup (episode_num : Option Int)
    (episode_data : Option (List (PyKey × String))) : Option String :=
  match episode_num, episode_data with
  | some e, some m => if m ≠ [] then dictGet m (PyKey.pyInt e) else none
  | _, _ => none

/-- The distinct extracted series names of a batch (claim C4's trigger
condition; the code computes nothing of this kind). -/
def spec_distinct_series (files : List String) : List String :=
  (files.filterMap (fun fn => (extract_anime_info EPISODE_PATTERNS_CONFIG fn).1)).dedup

/-- Does a confirmation request precede every rename in an outcome list
(claim C4's requirement on the orchestrator)?  True when no rename occurs. -/
def confirmBeforeRename : List FileOutcome → Bool
  | [] => true
  | FileOutcome.confirmRequest :: _ => true
  | FileOutcome.attemptRename _ _ :: _ => false
  | FileOutcome.skipped _ :: rest => confirmBeforeRename rest

/-! ### Helper lemmas -/

theorem extractGo_ext (file_ext : String) (filename : List Char) :
    ∀ cfgs : List PatternConfig,
      (extractGo file_ext filename cfgs).2.2.2 = file_ext := by
  intro cfgs
  induction cfgs with
  | nil => rfl
  | cons config rest ih =>
    unfold extractGo
    cases research config.rgx filename with
    | none => exact ih
    | some caps => rfl

theorem rfindIdxGo_none (c : Char) :
    ∀ (l : List Char) (i : Nat), c ∉ l → rfindIdxGo c l i = none := by
  intro l
  induction l with
  | nil => intro i _; rfl
  | cons x rest ih =>
    intro i h
    unfold rfindIdxGo
    rw [ih (i + 1) (fun hm => h (List.mem_cons_of_mem x hm))]
    rw [if_neg (fun hx => h (by rw [← hx]; exact List.mem_cons_self x rest))]

theorem rename_anime_file_not_confirm (cf fn : String) (so : Option Int)
    (et o : Option String) :
    rename_anime_file cf fn so et o ≠ FileOutcome.confirmRequest := by
  unfold rename_anime_file
  dsimp only
  split <;> intro h <;> exact FileOutcome.noConfusion h

/-! ### Claim C2 -/

/-- C2, counterexample: the legacy registry `EPISODE_PATTERNS` of
`src/utils/anime_utils.py` places the season-less rules first, so for the
filename of the claim its extraction is the season-less fallback result —
series `"Example Show 2nd Season"`, no season — and not series
`"Example Show"` with season 2 and episode 3 as the claim states. -/
theorem claim_C2_counterexample :
    au_get_episode_info "Watch Example Show 2nd Season Episode 03 Subbed" =
      some ("Example Show 2nd Season", none, 3, none,
        "Watch Example Show 2nd Season Episode 03 Subbed") ∧
    ("Example Show 2nd Season" : String) ≠ "Example Show" := by
  decide

/-- C2, amended: rules are tried in fixed registry order and the first match
wins in both extractors; in the `AnimeHandler` registry
(`EPISODE_PATTERNS_CONFIG`) the season-capturing rules precede the season-less
ones and the claim's filename yields series `"Example Show"`, season 2,
episode 3, while in the legacy `anime_utils` registry (`EPISODE_PATTERNS`)
the season-less rules precede and the same filename loses the season,
yielding series `"Example Show 2nd Season"` with no season. -/
theorem claim_C2 :
    extract_anime_info EPISODE_PATTERNS_CONFIG
        "Watch Example Show 2nd Season Episode 03 Subbed" =
      (some "Example Show", some 2, some 3, "") ∧
    au_get_episode_info "Watch Example Show 2nd Season Episode 03 Subbed" =
      some ("Example Show 2nd Season", none, 3, none,
        "Watch Example Show 2nd Season Episode 03 Subbed") := by
  decide

/-! ### Claim C3 -/

/-- C3: for every filename and caller-supplied default season, the merged
effective season of `AnimeHandler._process_anime_files` is the season
extracted from the filename whenever extraction produced one, and the default
exactly when no season was extracted. -/
theorem claim_C3 :
    (∀ (fn : String) (d s : Int),
       (extract_anime_info EPISODE_PATTERNS_CONFIG fn).2.1 = some s →
       effective_season (extract_anime_info EPISODE_PATTERNS_CONFIG fn).2.1 d = s) ∧
    (∀ (fn : String) (d : Int),
       (extract_anime_info EPISODE_PATTERNS_CONFIG fn).2.1 = none →
       effective_season (extract_anime_info EPISODE_PATTERNS_CONFIG fn).2.1 d = d) := by
  constructor
  · intro fn d s h
    rw [h]
    rfl
  · intro fn d h
    rw [h]
    rfl

/-- C3, witness: extracted season 3 with default 2 gives effective season 3;
no extracted season with default 2 gives effective season 2. -/
theorem claim_C3_witness :
    effective_season
      (extract_anime_info EPISODE_PATTERNS_CONFIG
        "Example Show 3rd Season Episode 07.mkv").2.1 2 = 3 ∧
    effective_season
      (extract_anime_info EPISODE_PATTERNS_CONFIG
        "Example Show Episode 01.mkv").2.1 2 = 2 :=
  ⟨claim_C3.1 "Example Show 3rd Season Episode 07.mkv" 2 3 (by decide),
   claim_C3.2 "Example Show Episode 01.mkv" 2 (by decide)⟩

/-! ### Claim C4 -/

/-- C4, counterexample: a batch with two distinct extracted series names and
the non-zero season override 2 is renamed outright — the orchestrator emits
the two rename attempts and no confirmation request, so no confirmation
precedes the renames and there is no decline path that could leave the files
untouched. -/
theorem claim_C4_counterexample :
    (spec_distinct_series ["Alpha Episode 01.mkv", "Beta Episode 02.mkv"]).length = 2 ∧
    ((2 : Int) ≠ 0) ∧
    process_anime_files "dir" ["Alpha Episode 01.mkv", "Beta Episode 02.mkv"]
        2 none none =
      [FileOutcome.attemptRename "dir/Alpha Episode 01.mkv"
         "dir/Alpha - S02 - E01.mkv",
       FileOutcome.attemptRename "dir/Beta Episode 02.mkv"
         "dir/Beta - S02 - E02.mkv"] ∧
    confirmBeforeRename
      (process_anime_files "dir" ["Alpha Episode 01.mkv", "Beta Episode 02.mkv"]
        2 none none) = false := by
  refine ⟨by decide, by decide, by decide, by decide⟩

/-- C4, amended: the orchestrator never requests confirmation — whatever the
batch, the season default and the override, it simply produces one outcome
per file and no confirmation request is ever among them (there is no
multi-series check, no prompt and no abort path in the code). -/
theorem claim_C4 :
    ∀ (base_dir : String) (files : List String) (d : Int)
      (override : Option String) (data : Option (List (PyKey × String))),
      (process_anime_files base_dir files d override data).length = files.length ∧
      FileOutcome.confirmRequest ∉ process_anime_files base_dir files d override data := by
  intro base_dir files d override data
  refine ⟨List.length_map _ _, ?_⟩
  intro hmem
  rw [process_anime_files, List.mem_map] at hmem
  obtain ⟨fn, _, heq⟩ := hmem
  exact rename_anime_file_not_confirm _ _ _ _ _ heq

/-- C4, witness for the amended claim at a concrete batch. -/
theorem claim_C4_witness :
    (process_anime_files "dir" ["Alpha Episode 01.mkv"] 2 none none).length = 1 ∧
    FileOutcome.confirmRequest ∉
      process_anime_files "dir" ["Alpha Episode 01.mkv"] 2 none none :=
  claim_C4 "dir" ["Alpha Episode 01.mkv"] 2 none none

/-! ### Claim C6 -/

/-- C6: when the old path equals the new path, `BaseHandler.rename_file`
reports a skip and leaves the filesystem untouched, and
`_perform_rename_operation` likewise reports "no change" without touching the
filesystem — re-running the tool on an already-correctly-named file is a
no-op. -/
theorem claim_C6 :
    (∀ (fs : List String) (base_dir old_name new_name : String),
       pjoin base_dir old_name = pjoin base_dir new_name →
       rename_file fs base_dir old_name new_name =
         (fs, RenameEvent.skippedSame (pjoin base_dir new_name))) ∧
    (∀ (fs : List String) (p : String),
       handler_perform_rename_operation fs p p =
         Except.ok (fs, RenameEvent.noChange p)) := by
  constructor
  · intro fs base_dir old_name new_name h
    unfold rename_file
    dsimp only
    rw [if_pos h]
  · intro fs p
    unfold handler_perform_rename_operation
    rw [if_neg (fun hne => hne rfl)]

/-- C6, witness: a file whose old and new names coincide is skipped with the
filesystem unchanged. -/
theorem claim_C6_witness :
    rename_file ["d/a.mkv"] "d" "a.mkv" "a.mkv" =
      (["d/a.mkv"], RenameEvent.skippedSame (pjoin "d" "a.mkv")) :=
  claim_C6.1 ["d/a.mkv"] "d" "a.mkv" "a.mkv" rfl

/-! ### Claim C7 -/

/-- C7: a filesystem error while renaming one file is caught by
`BaseHandler.rename_file`, which reports it and leaves the filesystem as it
was; the loop of `BaseHandler.process_files` emits exactly one report per
entry of the renaming map and always continues with the remaining entries, so
one per-file failure never aborts the batch. -/
theorem claim_C7 :
    (∀ (fs : List String) (base_dir : String) (pairs : List (String × String)),
       (process_files_loop fs base_dir pairs).2.length = pairs.length) ∧
    (∀ (fs : List String) (base_dir old_name new_name : String) (e : OSErr),
       pjoin base_dir old_name ≠ pjoin base_dir new_name →
       osRename fs (pjoin base_dir old_name) (pjoin base_dir new_name) = .error e →
       rename_file fs base_dir old_name new_name =
         (fs, RenameEvent.errorReport old_name e)) ∧
    (∀ (fs : List String) (base_dir : String) (p : String × String)
       (rest : List (String × String)),
       process_files_loop fs base_dir (p :: rest) =
         ((process_files_loop (rename_file fs base_dir p.1 p.2).1 base_dir rest).1,
          (rename_file fs base_dir p.1 p.2).2 ::
            (process_files_loop (rename_file fs base_dir p.1 p.2).1 base_dir rest).2)) := by
  refine ⟨?_, ?_, ?_⟩
  · intro fs base_dir pairs
    induction pairs generalizing fs with
    | nil => rfl
    | cons p rest ih =>
      cases p with
      | mk old_name new_name =>
        unfold process_files_loop
        dsimp only
        rw [List.length_cons, ih]
        rfl
  · intro fs base_dir old_name new_name e hne herr
    unfold rename_file
    dsimp only
    rw [if_neg hne, herr]
  · intro fs base_dir p rest
    cases p with
    | mk old_name new_name => rfl

/-- C7, witness: renaming a missing file reports the error with the
filesystem unchanged, and a two-entry batch still yields two reports. -/
theorem claim_C7_witness :
    rename_file [] "d" "a" "b" = ([], RenameEvent.errorReport "a" OSErr.srcMissing) ∧
    (process_files_loop [] "d" [("a", "b"), ("c", "e")]).2.length = 2 :=
  ⟨claim_C7.2.1 [] "d" "a" "b" OSErr.srcMissing (by decide) (by rfl),
   claim_C7.1 [] "d" [("a", "b"), ("c", "e")]⟩

/-! ### Claim C9 -/

/-- C9, counterexample: a supplied list whose first rule has no `pattern`
field at all is installed wholesale by `AnimeHandler._set_episode_patterns`
with no warning — the invalid rule is kept, not rejected per item — and a
non-list value yields a warning with the defaults kept rather than a
`ConfigError`. -/
theorem claim_C9_counterexample :
    set_episode_patterns
        (PatternsValue.plist [⟨none⟩, ⟨some "^(?P<series_name>.*?) Episode (?P<episode_num>\\d+)"⟩])
        default_raw_rules =
      SetPatternsResult.ok
        [⟨none⟩, ⟨some "^(?P<series_name>.*?) Episode (?P<episode_num>\\d+)"⟩] false ∧
    spec_claimed_replace
        (PatternsValue.plist [⟨none⟩, ⟨some "^(?P<series_name>.*?) Episode (?P<episode_num>\\d+)"⟩])
        default_raw_rules =
      SetPatternsResult.ok
        [⟨some "^(?P<series_name>.*?) Episode (?P<episode_num>\\d+)"⟩] true ∧
    SetPatternsResult.ok
        [RawRule.mk none, ⟨some "^(?P<series_name>.*?) Episode (?P<episode_num>\\d+)"⟩] false ≠
      SetPatternsResult.ok
        [⟨some "^(?P<series_name>.*?) Episode (?P<episode_num>\\d+)"⟩] true ∧
    set_episode_patterns PatternsValue.nonList default_raw_rules =
      SetPatternsResult.ok default_raw_rules true ∧
    spec_claimed_replace PatternsValue.nonList default_raw_rules =
      SetPatternsResult.configError := by
  refine ⟨rfl, rfl, by decide, rfl, rfl⟩

/-- C9, amended: replacing the registry never fails fatally — any list value
is installed wholesale with no per-item validation (rules without a `pattern`
field included), and a non-list value only produces a warning while the
current rules are kept; no `ConfigError` exists. -/
theorem claim_C9 :
    (∀ (v : PatternsValue) (current : List RawRule),
       set_episode_patterns v current ≠ SetPatternsResult.configError) ∧
    (∀ (items current : List RawRule),
       set_episode_patterns (PatternsValue.plist items) current =
         SetPatternsResult.ok items false) ∧
    (∀ current : List RawRule,
       set_episode_patterns PatternsValue.nonList current =
         SetPatternsResult.ok current true) := by
  refine ⟨?_, fun _ _ => rfl, fun _ => rfl⟩
  intro v current
  cases v <;> intro h <;> exact SetPatternsResult.noConfusion h

/-- C9, witness for the amended claim at concrete inputs. -/
theorem claim_C9_witness :
    set_episode_patterns PatternsValue.nonList default_raw_rules ≠
      SetPatternsResult.configError :=
  claim_C9.1 PatternsValue.nonList default_raw_rules

/-! ### Claim C10 -/

/-- C10: an empty-string series-title override behaves exactly like an absent
one — the per-file rename step and the Jikan title selection give the same
result for override `""` and override `None` — and the override wins only
when it is a non-empty string. -/
theorem claim_C10 :
    (∀ (current_filepath original_filename : String) (so : Option Int)
       (et : Option String),
       rename_anime_file current_filepath original_filename so et (some "") =
         rename_anime_file current_filepath original_filename so et none) ∧
    (∀ (t : String) (extracted : Option String), t ≠ "" →
       final_series_name (some t) extracted = some t) ∧
    (∀ (online : Bool) (files : List String),
       determine_series_title_for_jikan (some "") online files =
         determine_series_title_for_jikan none online files) := by
  refine ⟨fun _ _ _ _ => rfl, ?_, fun _ _ => rfl⟩
  intro t extracted h
  unfold final_series_name
  rw [if_pos]
  simp [truthyOpt, h]

/-- C10, witness: a non-empty override wins over the extracted name. -/
theorem claim_C10_witness :
    final_series_name (some "My Show") (some "Alpha") = some "My Show" :=
  claim_C10.2.1 "My Show" (some "Alpha") (by decide)

/-! ### Claim C1 -/

/-- C1, counterexample: the module-level constructor appends the title with
no sanitization at all — a title containing `:` is kept verbatim — and the
`AnimeHandler` constructor additionally strips the title of surrounding
whitespace before removing invalid characters, so on a title with
surrounding spaces neither constructor matches the rule the claim states. -/
theorem claim_C1_counterexample :
    handler_construct_new_anime_filename "My Show" 5 ".mkv" (some 1)
        (some "The Start:") ≠
      spec_claimed_construct "My Show" 5 ".mkv" (some 1) (some "The Start:") ∧
    construct_new_anime_filename "My Show" 5 ".mkv" (some 1)
        (some " The Start ") ≠
      spec_claimed_construct "My Show" 5 ".mkv" (some 1) (some " The Start ") := by
  decide

theorem construct_eq_amended (series_name : String) (episode_num : Int)
    (file_ext : String) (season : Option Int) (episode_title : Option String) :
    construct_new_anime_filename series_name episode_num file_ext season episode_title =
      spec_amended_construct series_name episode_num file_ext season episode_title := by
  unfold construct_new_anime_filename spec_amended_construct
  dsimp only
  cases episode_title with
  | none =>
    cases season with
    | none => simp [truthyOpt]
    | some n =>
      by_cases hn : n = 0 <;> simp [truthyOpt, hn]
  | some t =>
    by_cases ht : t = ""
    · subst ht
      cases season with
      | none => simp [truthyOpt, truthyStr, pyStrip, pyStripList, removeInvalidChars]
      | some n =>
        by_cases hn : n = 0 <;>
          simp [truthyOpt, truthyStr, hn, pyStrip, pyStripList, removeInvalidChars]
    · by_cases hs : removeInvalidChars (pyStrip t) = ""
      · cases season with
        | none => simp [truthyOpt, truthyStr, ht, hs]
        | some n =>
          by_cases hn : n = 0 <;> simp [truthyOpt, truthyStr, ht, hs, hn]
      · cases season with
        | none => simp [truthyOpt, truthyStr, ht, hs]
        | some n =>
          by_cases hn : n = 0 <;> simp [truthyOpt, truthyStr, ht, hs, hn]

theorem handler_construct_eq_amended (series_name : String) (episode_num : Int)
    (file_ext : String) (season : Option Int) (episode_title : Option String) :
    handler_construct_new_anime_filename series_name episode_num file_ext season
        episode_title =
      spec_amended_handler_construct series_name episode_num file_ext season
        episode_title := by
  unfold handler_construct_new_anime_filename spec_amended_handler_construct
  dsimp only
  cases episode_title with
  | none =>
    cases season with
    | none => simp [truthyOpt]
    | some n => by_cases hn : n = 0 <;> simp [truthyOpt, hn]
  | some t =>
    by_cases ht : t = ""
    · subst ht
      cases season with
      | none => simp [truthyOpt]
      | some n => by_cases hn : n = 0 <;> simp [truthyOpt, hn]
    · cases season with
      | none => simp [truthyOpt, ht]
      | some n => by_cases hn : n = 0 <;> simp [truthyOpt, ht, hn]

/-- C1, amended: the `AnimeHandler` constructor joins the non-empty parts
with `" - "` in fixed order — series stripped of surrounding whitespace,
`S`-segment only for a present non-zero season, `E`-segment always, the title
stripped of surrounding whitespace and of all of `< > : " / \ | ? *` and
included only if non-empty after that, the extension appended verbatim — and
the claim's example holds; the module-level constructor instead joins series
name and title verbatim, with no stripping and no sanitization. -/
theorem claim_C1 :
    (∀ (series_name : String) (episode_num : Int) (file_ext : String)
       (season : Option Int) (episode_title : Option String),
       construct_new_anime_filename series_name episode_num file_ext season
           episode_title =
         spec_amended_construct series_name episode_num file_ext season
           episode_title) ∧
    (∀ (series_name : String) (episode_num : Int) (file_ext : String)
       (season : Option Int) (episode_title : Option String),
       handler_construct_new_anime_filename series_name episode_num file_ext
           season episode_title =
         spec_amended_handler_construct series_name episode_num file_ext season
           episode_title) ∧
    construct_new_anime_filename "My Show" 5 ".mkv" (some 1) (some "The Start") =
      "My Show - S01 - E05 - The Start.mkv" ∧
    handler_construct_new_anime_filename "My Show" 5 ".mkv" (some 1)
        (some "The Start") =
      "My Show - S01 - E05 - The Start.mkv" :=
  ⟨construct_eq_amended, handler_construct_eq_amended, by decide, by decide⟩

/-! ### Claim C5 -/

/-- C5, counterexample: for the record extracted from
`"Watch Alpha 2nd Season Episode 01.mkv"` — effective series name `"Alpha"`,
effective season 2, episode 1 — and a loaded title map of the shape
`AnimeHandler._load_episode_titles_from_csv` produces (integer keys), the
`AnimeHandler` merge returns the title `"T"` by looking up the episode number
alone, while a lookup with the key formed from the effective series name, the
effective season and the episode number, as the claim states, finds no
matching entry and would be absent. -/
theorem claim_C5_counterexample :
    extract_anime_info EPISODE_PATTERNS_CONFIG
        "Watch Alpha 2nd Season Episode 01.mkv" =
      (some "Alpha", some 2, some 1, ".mkv") ∧
    effective_season (some 2) 0 = 2 ∧
    episode_title_merge (some 1) (some [(PyKey.pyInt 1, "T")]) = some "T" ∧
    spec_claimed_title_lookup "Alpha" 2 1 (some [(PyKey.pyInt 1, "T")]) = none ∧
    (some "T" : Option String) ≠ none := by
  refine ⟨by decide, rfl, rfl, by decide, by decide⟩

theorem handler_title_eq_amended (series_name : Option String)
    (eff_season : Int) (episode_num : Option Int)
    (episode_data : Option (List (PyKey × String))) :
    handler_effective_title series_name eff_season episode_num episode_data =
      spec_amended_tuple_lookup series_name eff_season episode_num episode_data := by
  unfold handler_effective_title spec_amended_tuple_lookup
  cases series_name with
  | none => rfl
  | some s =>
    cases episode_num with
    | none =>
      cases episode_data with
      | none => simp [truthyOpt, truthyDict]
      | some m => simp [truthyOpt, truthyDict]
    | some e =>
      cases episode_data with
      | none => simp [truthyOpt, truthyDict]
      | some m =>
        by_cases hs : s = ""
        · subst hs
          simp [truthyOpt, truthyDict]
        · cases m with
          | nil => simp [truthyOpt, truthyDict, hs]
          | cons x rest => simp [truthyOpt, truthyDict, hs]

theorem anime_title_eq_amended (episode_num : Option Int)
    (episode_data : Option (List (PyKey × String))) :
    episode_title_merge episode_num episode_data =
      spec_amended_episode_lookup episode_num episode_data := by
  unfold episode_title_merge spec_amended_episode_lookup
  cases episode_num with
  | none =>
    cases episode_data with
    | none => rfl
    | some m => rfl
  | some e =>
    cases episode_data with
    | none => rfl
    | some m =>
      cases m with
      | nil => simp [truthyDict]
      | cons x rest => simp [truthyDict]

/-- C5, amended: in the module-level `_process_filenames`, the merged episode
title is looked up with the key formed from the extracted series name (which,
with no override mechanism there, is the effective one), the effective season
and the extracted episode number, and is absent when the series name is
missing or empty, no episode number was extracted, or no map entry matches;
the `AnimeHandler` implementation instead looks the title up by the extracted
episode number alone, ignoring the effective series name and season. -/
theorem claim_C5 :
    (∀ (series_name : Option String) (eff_season : Int)
       (episode_num : Option Int)
       (episode_data : Option (List (PyKey × String))),
       handler_effective_title series_name eff_season episode_num episode_data =
         spec_amended_tuple_lookup series_name eff_season episode_num
           episode_data) ∧
    (∀ (episode_num : Option Int)
       (episode_data : Option (List (PyKey × String))),
       episode_title_merge episode_num episode_data =
         spec_amended_episode_lookup episode_num episode_data) :=
  ⟨handler_title_eq_amended, anime_title_eq_amended⟩

/-! ### Claim C8 -/

/-- C8, counterexample: the extension-less filename `"Alpha Episode 01"`
extracts to series `"Alpha"`, episode 1 and the empty-string extension, yet
the module-level `_rename_anime_file` routes it to the skipped outcome, because
its guard also demands a truthy file extension — so a record with an
empty-string extension is not always eligible for renaming. -/
theorem claim_C8_counterexample :
    au_extract_anime_info "Alpha Episode 01" = (some "Alpha", none, some 1, "") ∧
    handler_rename_anime_file "Alpha Episode 01" "Alpha Episode 01" (some 0)
        none =
      FileOutcome.skipped "Alpha Episode 01" := by
  refine ⟨by decide, by decide⟩

theorem extract_ext_eq_splitext (cfgs : List PatternConfig) (fn : String) :
    (extract_anime_info cfgs fn).2.2.2 = (splitext fn).2 :=
  extractGo_ext (splitext fn).2 fn.data cfgs

theorem splitext_no_dot (fn : String) (h : '.' ∉ fn.data) :
    (splitext fn).2 = "" := by
  unfold splitext splitextList
  rw [show rfindIdx fn.data '.' = none from rfindIdxGo_none '.' fn.data 0 h]
  dsimp only
  rw [if_neg]
  cases rfindIdx fn.data '/' with
  | none => dsimp only; omega
  | some i => dsimp only; omega

theorem rename_eligible_of_series_episode (current_filepath original_filename : String)
    (season_override : Option Int) (episode_title series_title_override : Option String)
    (h1 : truthyOpt (final_series_name series_title_override
        (extract_anime_info EPISODE_PATTERNS_CONFIG original_filename).1) = true)
    (h2 : (extract_anime_info EPISODE_PATTERNS_CONFIG original_filename).2.2.1.isSome = true) :
    rename_anime_file current_filepath original_filename season_override
        episode_title series_title_override =
      FileOutcome.attemptRename current_filepath
        (pjoin (pdirname current_filepath)
          (construct_new_anime_filename
            ((final_series_name series_title_override
              (extract_anime_info EPISODE_PATTERNS_CONFIG original_filename).1).getD "")
            ((extract_anime_info EPISODE_PATTERNS_CONFIG original_filename).2.2.1.getD 0)
            (extract_anime_info EPISODE_PATTERNS_CONFIG original_filename).2.2.2
            season_override episode_title)) := by
  unfold rename_anime_file
  dsimp only
  rw [h1, h2]
  rfl

theorem handler_skips_empty_ext (old_path filename : String)
    (season : Option Int) (episode_title : Option String)
    (h : truthyStr (au_extract_anime_info filename).2.2.2 = false) :
    handler_rename_anime_file old_path filename season episode_title =
      FileOutcome.skipped filename := by
  unfold handler_rename_anime_file
  dsimp only
  rw [h]
  simp

/-- C8, amended: extraction always returns the `os.path.splitext` extension —
the empty string, never an absent value, for a filename with no dot — and in
the `AnimeHandler` implementation a record with a series name and an episode
number is eligible for renaming whatever its extension (the guard never
consults it); the module-level `_rename_anime_file`, however, additionally
requires a truthy (non-empty) extension and routes empty-extension records to
the skipped outcome. -/
theorem claim_C8 :
    (∀ (cfgs : List PatternConfig) (fn : String),
       (extract_anime_info cfgs fn).2.2.2 = (splitext fn).2) ∧
    (∀ fn : String, '.' ∉ fn.data → (splitext fn).2 = "") ∧
    (∀ (current_filepath original_filename : String) (so : Option Int)
       (et o : Option String),
       truthyOpt (final_series_name o
           (extract_anime_info EPISODE_PATTERNS_CONFIG original_filename).1) = true →
       (extract_anime_info EPISODE_PATTERNS_CONFIG original_filename).2.2.1.isSome = true →
       rename_anime_file current_filepath original_filename so et o =
         FileOutcome.attemptRename current_filepath
           (pjoin (pdirname current_filepath)
             (construct_new_anime_filename
               ((final_series_name o
                 (extract_anime_info EPISODE_PATTERNS_CONFIG original_filename).1).getD "")
               ((extract_anime_info EPISODE_PATTERNS_CONFIG original_filename).2.2.1.getD 0)
               (extract_anime_info EPISODE_PATTERNS_CONFIG original_filename).2.2.2
               so et))) ∧
    (∀ (old_path filename : String) (season : Option Int)
       (episode_title : Option String),
       truthyStr (au_extract_anime_info filename).2.2.2 = false →
       handler_rename_anime_file old_path filename season episode_title =
         FileOutcome.skipped filename) :=
  ⟨extract_ext_eq_splitext, splitext_no_dot,
   rename_eligible_of_series_episode, handler_skips_empty_ext⟩

/-- C8, witness: the extension-less `"Alpha Episode 01"` has the empty-string
extension, is renamed by the `AnimeHandler` step, and is skipped by the
module-level step. -/
theorem claim_C8_witness :
    (splitext "Alpha Episode 01").2 = "" ∧
    rename_anime_file "Alpha Episode 01" "Alpha Episode 01" (some 0) none none =
      FileOutcome.attemptRename "Alpha Episode 01"
        (pjoin (pdirname "Alpha Episode 01")
          (construct_new_anime_filename
            ((final_series_name none
              (extract_anime_info EPISODE_PATTERNS_CONFIG "Alpha Episode 01").1).getD "")
            ((extract_anime_info EPISODE_PATTERNS_CONFIG "Alpha Episode 01").2.2.1.getD 0)
            (extract_anime_info EPISODE_PATTERNS_CONFIG "Alpha Episode 01").2.2.2
            (some 0) none)) ∧
    handler_rename_anime_file "Alpha Episode 01" "Alpha Episode 01" (some 0)
        none =
      FileOutcome.skipped "Alpha Episode 01" :=
  ⟨claim_C8.2.1 "Alpha Episode 01" (by decide),
   claim_C8.2.2.1 "Alpha Episode 01" "Alpha Episode 01" (some 0) none none
     (by decide) (by decide),
   claim_C8.2.2.2 "Alpha Episode 01" "Alpha Episode 01" (some 0) none (by decide)⟩
